import Mathlib

/-!
Shallow embedding of `src/main.py` (strava-weather), a linear script that
fetches recent Strava activities, fetches hourly weather for each activity's
start location/time from the Open-Meteo archive API, and appends a formatted
weather summary to the activity description.

Modelling conventions:
* Python strings are Lean `String`s; Python's substring test `needle in s`
  is `containsSub s needle` (infix on the character lists).
* `None`-or-empty description: `main` reads `details.get("description", "")`
  and every use of the description is a truthiness test, under which `None`
  and `""` behave identically, so descriptions are plain `String`s with `""`
  for absent.
* Floats: the script only formats weather values with `"{x:.1f}"` (one fixed
  decimal) or `"{x}"`. We model temperature and wind speed as exact tenths
  (an `Int` number of tenths, e.g. `183` for `18.3`), rendered by `fmt1`,
  and humidity as an `Int` rendered by `toString`; on such exact inputs this
  agrees with CPython's formatting.
* Network calls: each `requests.*` call is modelled by the response the
  remote would give; `response.raise_for_status()` raising is an
  `Except.error` that propagates exactly as the uncaught Python exception
  does. Side effects (GET details / weather GET / PUT description) are
  recorded in an explicit effect trace.
-/

namespace StravaWeather

/-- Python `needle in haystack` on strings. -/
def containsSub (haystack needle : String) : Bool :=
  decide (needle.data <:+: haystack.data)

/-- The marker substring used by `update_activity_description` to detect a
previously appended weather block: the thermometer emoji `"🌡️"`. -/
def marker : String := "🌡️"

/-- Render an exact-tenths value the way Python's `f"{x:.1f}"` renders it:
`183 ↦ "18.3"`, `120 ↦ "12.0"`, `-5 ↦ "-0.5"`. -/
def fmt1 (t : Int) : String :=
  (if t < 0 then "-" else "") ++ toString (t.natAbs / 10) ++ "." ++ toString (t.natAbs % 10)

/-- `weather_code_to_description` from `src/main.py`: fixed WMO lookup table
with default `"Unknown"`. -/
def weather_code_to_description (code : Int) : String :=
  if code = 0 then "Clear sky"
  else if code = 1 then "Mainly clear"
  else if code = 2 then "Partly cloudy"
  else if code = 3 then "Overcast"
  else if code = 45 then "Foggy"
  else if code = 48 then "Depositing rime fog"
  else if code = 51 then "Light drizzle"
  else if code = 53 then "Moderate drizzle"
  else if code = 55 then "Dense drizzle"
  else if code = 61 then "Slight rain"
  else if code = 63 then "Moderate rain"
  else if code = 65 then "Heavy rain"
  else if code = 71 then "Slight snow"
  else if code = 73 then "Moderate snow"
  else if code = 75 then "Heavy snow"
  else if code = 77 then "Snow grains"
  else if code = 80 then "Slight rain showers"
  else if code = 81 then "Moderate rain showers"
  else if code = 82 then "Violent rain showers"
  else if code = 85 then "Slight snow showers"
  else if code = 86 then "Heavy snow showers"
  else if code = 95 then "Thunderstorm"
  else if code = 96 then "Thunderstorm with slight hail"
  else if code = 99 then "Thunderstorm with heavy hail"
  else "Unknown"

/-- The dict returned by `get_weather_data` (field order as constructed in
the source); each value may be `None`. Temperature and wind speed are exact
tenths, humidity and weather code are plain integers. -/
structure WeatherData where
  temperature : Option Int
  humidity : Option Int
  wind_speed : Option Int
  weather_code : Option Int
  deriving DecidableEq, Repr

/-- The `parts` list built inside `format_weather_string`, in source order:
weather code description, temperature, humidity, wind speed; a part is
included only when its field is not `None`. -/
def weatherParts (w : WeatherData) : List String :=
  (match w.weather_code with
   | some c => ["🌤️ " ++ weather_code_to_description c]
   | none => []) ++
  (match w.temperature with
   | some t => ["🌡️ " ++ fmt1 t ++ "°C"]
   | none => []) ++
  (match w.humidity with
   | some h => ["💧 " ++ toString h ++ "%"]
   | none => []) ++
  (match w.wind_speed with
   | some s => ["💨 " ++ fmt1 s ++ " km/h"]
   | none => [])

/-- Python `" | ".join(parts)`. -/
def joinSep : List String → String
  | [] => ""
  | [p] => p
  | p :: q :: ps => p ++ " | " ++ joinSep (q :: ps)

/-- `format_weather_string` from `src/main.py`: `None` input (falsy
`weather_data`) gives `None`; otherwise the parts are joined with `" | "`,
and an empty parts list gives `None`. -/
def format_weather_string : Option WeatherData → Option String
  | none => none
  | some w =>
    let parts := weatherParts w
    if parts = [] then none else some (joinSep parts)

/-! ## Weather fetch (`get_weather_data`) -/

/-- The `"hourly"` object of an Open-Meteo archive response when it is
non-empty: each of the four expected keys may be present (with a list of
hourly values, each possibly `null`) or absent. -/
structure HourlyData where
  temperature_2m : Option (List (Option Int))
  relative_humidity_2m : Option (List (Option Int))
  wind_speed_10m : Option (List (Option Int))
  weather_code : Option (List (Option Int))
  deriving DecidableEq, Repr

/-- A weather API interaction as `get_weather_data` sees it: either some
`requests` call raised (HTTP error status via `raise_for_status`, connection
error, or undecodable JSON) — modelled as `raiseErr` — or a decoded JSON
body whose `"hourly"` member is falsy (`none`: absent or empty) or a
non-empty object. -/
inductive WeatherResp where
  | raiseErr
  | body (hourly : Option HourlyData)
  deriving DecidableEq, Repr

/-- Exceptions that can escape `get_weather_data`. -/
inductive FetchErr where
  | httpError
  | indexError
  deriving DecidableEq, Repr

/-- Default used for an absent hourly key: Python `[None] * 24`. -/
def noneList24 : List (Option Int) := List.replicate 24 none

/-- Python `hourly.get(key, [None] * 24)[hour]`: index into the key's list
(defaulted when the key is absent); an out-of-range index raises
`IndexError`. -/
def hourlyIndex (field : Option (List (Option Int))) (hour : Nat) :
    Except FetchErr (Option Int) :=
  match (field.getD noneList24).get? hour with
  | some v => Except.ok v
  | none => Except.error FetchErr.indexError

/-- `get_weather_data` from `src/main.py`. The latitude/longitude/timestamp
arguments are reflected in the response `resp` the remote gives; `hour` is
`datetime.fromisoformat(timestamp...).hour`, which for a well-formed
timestamp lies in `0..23`. Returns `none` when `"hourly"` is falsy, else
the four-field dict, raising (`Except.error`) on HTTP errors or on
out-of-range hourly lists. -/
def get_weather_data (resp : WeatherResp) (hour : Nat) :
    Except FetchErr (Option WeatherData) :=
  match resp with
  | WeatherResp.raiseErr => Except.error FetchErr.httpError
  | WeatherResp.body none => Except.ok none
  | WeatherResp.body (some h) => do
    let t ← hourlyIndex h.temperature_2m hour
    let hu ← hourlyIndex h.relative_humidity_2m hour
    let w ← hourlyIndex h.wind_speed_10m hour
    let c ← hourlyIndex h.weather_code hour
    Except.ok (some ⟨t, hu, w, c⟩)

/-! ## Activity lister (`get_recent_activities`) -/

/-- An HTTP response to the activity-list GET: status code and decoded JSON
array of activities (opaque ids). -/
structure PageResponse where
  status : Nat
  respBody : List Nat
  deriving DecidableEq, Repr

/-- `requests.Response.raise_for_status`: raises for any 4xx/5xx status,
else yields the decoded body. -/
def raise_for_status (r : PageResponse) : Except Nat (List Nat) :=
  if 400 ≤ r.status ∧ r.status < 600 then Except.error r.status
  else Except.ok r.respBody

/-- `get_recent_activities` from `src/main.py`. The remote is a function
from (attempt number, `per_page` query parameter) to its response; the
source issues exactly one GET — attempt `0`, carrying only `per_page`
(default `10`; `main` passes `5`) — and returns its decoded body, raising
on any error status. There is no page parameter, no loop, and no retry in
the source. -/
def get_recent_activities (server : Nat → Nat → PageResponse) (per_page : Nat) :
    Except Nat (List Nat) :=
  raise_for_status (server 0 per_page)

/-! ## Description update (`update_activity_description`) -/

/-- Outcome of `update_activity_description`: `skipped` is the early
`return False` path, which issues no PUT; `wrote d` is the path that PUTs
`{"description": d}` and returns `True` (the PUT's own HTTP outcome is not
modelled; no claim concerns it). -/
inductive UpdateAction where
  | skipped
  | wrote (newDescription : String)
  deriving DecidableEq, Repr

/-- `update_activity_description` from `src/main.py` (the two data
arguments; token and id only address the PUT). Skips when the existing
description is truthy and contains `"🌡️"`; otherwise appends the weather
string after a blank line, or uses it alone when the existing description
is falsy. -/
def update_activity_description (weather_string existing_description : String) :
    UpdateAction :=
  if existing_description ≠ "" ∧ containsSub existing_description marker = true then
    UpdateAction.skipped
  else if existing_description ≠ "" then
    UpdateAction.wrote (existing_description ++ "\n\n" ++ weather_string)
  else
    UpdateAction.wrote weather_string

/-! ## Driver loop (`main`) -/

/-- The fields of an activity's detail record that `main` reads. Coordinate
values are opaque (only the length of `start_latlng` matters to control
flow); `description` is `""` for absent/null. -/
structure ActivityDetails where
  id : Nat
  name : String
  start_date : String
  start_latlng : Option (List Int)
  description : String
  deriving DecidableEq, Repr

/-- Remote calls `main` makes per activity, in order. -/
inductive Effect where
  | getDetails (id : Nat)
  | fetchWeather (id : Nat)
  | putDescription (id : Nat) (desc : String)
  deriving DecidableEq, Repr

/-- How one iteration of the `for activity in activities` loop ends, when no
exception escapes. -/
inductive StepOutcome where
  | skippedNoGps
  | skippedNoWeather
  | skippedNoWeatherString
  | skippedAlreadyAnnotated
  | updated (newDesc : String)
  deriving DecidableEq, Repr

/-- Exceptions that escape the loop body (there is no try/except in `main`,
so any of these aborts the whole run). -/
inductive RunError where
  | weatherError (e : FetchErr)
  | unpackError
  deriving DecidableEq, Repr

/-- One iteration of `main`'s loop over an activity: fetch details, check
`start_latlng` (skip when falsy or shorter than 2; `latitude, longitude =
start_latlng` raises `ValueError` when longer than 2), fetch weather (an
exception propagates), skip on falsy weather data or falsy weather string,
else run `update_activity_description`. Returns the effect trace and the
outcome or escaping exception. -/
def processActivity (resp : WeatherResp) (hour : Nat) (a : ActivityDetails) :
    List Effect × Except RunError StepOutcome :=
  let eff0 := [Effect.getDetails a.id]
  match a.start_latlng with
  | none => (eff0, Except.ok StepOutcome.skippedNoGps)
  | some l =>
    if l.length < 2 then (eff0, Except.ok StepOutcome.skippedNoGps)
    else if l.length ≠ 2 then (eff0, Except.error RunError.unpackError)
    else
      let eff1 := eff0 ++ [Effect.fetchWeather a.id]
      match get_weather_data resp hour with
      | Except.error e => (eff1, Except.error (RunError.weatherError e))
      | Except.ok none => (eff1, Except.ok StepOutcome.skippedNoWeather)
      | Except.ok (some wd) =>
        match format_weather_string (some wd) with
        | none => (eff1, Except.ok StepOutcome.skippedNoWeatherString)
        | some ws =>
          if ws = "" then (eff1, Except.ok StepOutcome.skippedNoWeatherString)
          else
            match update_activity_description ws a.description with
            | UpdateAction.skipped =>
              (eff1, Except.ok StepOutcome.skippedAlreadyAnnotated)
            | UpdateAction.wrote nd =>
              (eff1 ++ [Effect.putDescription a.id nd],
               Except.ok (StepOutcome.updated nd))

/-- `main`'s loop over the fetched activities, each paired with the weather
response the remote would give for it and its parsed start hour. An
exception in any iteration aborts the remaining iterations (no try/except
in the source). -/
def runLoop : List (ActivityDetails × WeatherResp × Nat) →
    List Effect × Except RunError (List (Nat × StepOutcome))
  | [] => ([], Except.ok [])
  | (a, resp, hour) :: rest =>
    match processActivity resp hour a with
    | (eff, Except.error e) => (eff, Except.error e)
    | (eff, Except.ok out) =>
      match runLoop rest with
      | (eff2, Except.error e) => (eff ++ eff2, Except.error e)
      | (eff2, Except.ok outs) => (eff ++ eff2, Except.ok ((a.id, out) :: outs))

/-- The activity's description after one loop iteration (the remote field is
replaced only by the PUT in the `updated` branch). -/
def runDescription (resp : WeatherResp) (hour : Nat) (a : ActivityDetails) :
    String :=
  match (processActivity resp hour a).2 with
  | Except.ok (StepOutcome.updated nd) => nd
  | _ => a.description

/-- Replace the description field (used to model the second run reading the
description written by the first). -/
def setDescription (a : ActivityDetails) (d : String) : ActivityDetails :=
  ⟨a.id, a.name, a.start_date, a.start_latlng, d⟩

/-! ## Part-order observation (for the composition-order claim) -/

/-- Index (in characters) of the first occurrence of `needle` in a character
list, `none` when absent. -/
def firstIdx (needle : List Char) : List Char → Option Nat
  | [] => if needle.isPrefixOf ([] : List Char) then some 0 else none
  | c :: t =>
    if needle.isPrefixOf (c :: t) then some 0
    else (firstIdx needle t).map (· + 1)

/-- Position of a part's distinguishing emoji inside the composed string. -/
def partIdx (s part : String) : Option Nat := firstIdx part.data s.data

/-- The order asserted by the spec for the composed block: the temperature
part strictly before the wind part, strictly before the condition part (all
three present). -/
def specPartsOrder (s : String) : Bool :=
  match partIdx s "🌡️", partIdx s "💨", partIdx s "🌤️" with
  | some i, some j, some k => decide (i < j ∧ j < k)
  | _, _, _ => false

/-- The order the source actually produces: condition, then temperature,
then wind. -/
def codePartsOrder (s : String) : Bool :=
  match partIdx s "🌤️", partIdx s "🌡️", partIdx s "💨" with
  | some i, some j, some k => decide (i < j ∧ j < k)
  | _, _, _ => false

/-! ## Helper lemmas -/

theorem containsSub_iff {h n : String} :
    containsSub h n = true ↔ n.data <:+: h.data := by
  simp [containsSub]

theorem ne_empty_of_containsSub_marker {s : String}
    (h : containsSub s marker = true) : s ≠ "" := by
  intro he
  subst he
  exact absurd h (by decide)

theorem mem_joinSep_contained :
    ∀ {ps : List String} {p : String}, p ∈ ps → p.data <:+: (joinSep ps).data
  | [], p, h => absurd h (List.not_mem_nil p)
  | [q], p, h => by
    rcases List.mem_singleton.mp h with rfl
    exact List.infix_rfl
  | q :: r :: ts, p, h => by
    rcases List.mem_cons.mp h with rfl | h2
    · show p.data <:+: (p ++ " | " ++ joinSep (r :: ts)).data
      rw [String.data_append, String.data_append]
      exact ((List.prefix_append p.data _).trans (List.prefix_append _ _)).isInfix
    · have ih : p.data <:+: (joinSep (r :: ts)).data := mem_joinSep_contained h2
      show p.data <:+: (q ++ " | " ++ joinSep (r :: ts)).data
      rw [String.data_append, String.data_append]
      obtain ⟨s, u, hsu⟩ := ih
      exact ⟨(q.data ++ " | ".data) ++ s, u, by rw [← hsu]; simp⟩

theorem marker_infix_of_temperature {wd : WeatherData} {t : Int} {ws : String}
    (ht : wd.temperature = some t)
    (hf : format_weather_string (some wd) = some ws) :
    containsSub ws marker = true := by
  have hmem : ("🌡️ " ++ fmt1 t ++ "°C") ∈ weatherParts wd := by
    unfold weatherParts
    rw [ht]
    simp
  have hne : weatherParts wd ≠ [] := by
    intro he
    rw [he] at hmem
    exact List.not_mem_nil _ hmem
  have hf2 : (if weatherParts wd = [] then none
      else some (joinSep (weatherParts wd))) = some ws := hf
  rw [if_neg hne] at hf2
  have hws : ws = joinSep (weatherParts wd) := (Option.some.inj hf2).symm
  have hpfx : marker.data <+: ("🌡️ " ++ fmt1 t ++ "°C").data := by
    rw [String.data_append, String.data_append]
    exact ((by decide : marker.data <+: "🌡️ ".data).trans
      (List.prefix_append _ _)).trans (List.prefix_append _ _)
  rw [containsSub_iff, hws]
  exact hpfx.isInfix.trans (mem_joinSep_contained hmem)

theorem update_wrote_shape {ws desc nd : String}
    (h : update_activity_description ws desc = UpdateAction.wrote nd) :
    desc.data <+: nd.data ∧ ws.data <:+ nd.data := by
  unfold update_activity_description at h
  split_ifs at h with h1 h2
  · cases h
    constructor
    · rw [String.data_append, String.data_append]
      exact (List.prefix_append _ _).trans (List.prefix_append _ _)
    · rw [String.data_append]
      exact List.suffix_append _ _
  · cases h
    have hd : desc = "" := by
      by_contra hne
      exact h2 hne
    subst hd
    exact ⟨List.nil_prefix, List.suffix_refl _⟩

theorem update_skipped_of_marker {ws desc : String}
    (h : containsSub desc marker = true) :
    update_activity_description ws desc = UpdateAction.skipped := by
  unfold update_activity_description
  rw [if_pos ⟨ne_empty_of_containsSub_marker h, h⟩]

/-! ## Claim theorems -/

/-- C1: for every activity whose existing description already contains the
weather marker substring `"🌡️"`, `update_activity_description` takes the
early-return path — it issues no write request and returns `False` — and
the whole loop iteration issues no PUT for any id, so the description is
left unchanged by the run. -/
theorem marked_description_never_rewritten (resp : WeatherResp) (hour : Nat)
    (a : ActivityDetails)
    (h : containsSub a.description marker = true) :
    (∀ ws, update_activity_description ws a.description = UpdateAction.skipped) ∧
    (∀ i d, Effect.putDescription i d ∉ (processActivity resp hour a).1) := by
  refine ⟨fun ws => update_skipped_of_marker h, fun i d => ?_⟩
  unfold processActivity
  cases hl : a.start_latlng with
  | none => simp [hl]
  | some l =>
    simp only [hl]
    by_cases h2 : l.length < 2
    · simp [h2]
    · by_cases h3 : l.length ≠ 2
      · simp [h2, h3]
      · rw [if_neg h2, if_neg h3]
        cases hw : get_weather_data resp hour with
        | error e => simp [hw]
        | ok o =>
          try simp only [hw]
          cases o with
          | none => simp
          | some wd =>
            cases hf : format_weather_string (some wd) with
            | none => simp [hf]
            | some ws =>
              try simp only [hf]
              by_cases hws : ws = ""
              · simp [hws]
              · rw [if_neg hws, update_skipped_of_marker h]
                simp

/-- Witness for C1 at a concrete marked description. -/
theorem marked_description_never_rewritten_witness :
    containsSub "hello 🌡️ 20°C" marker = true ∧
    update_activity_description "WS" "hello 🌡️ 20°C" = UpdateAction.skipped := by
  refine ⟨by decide, ?_⟩
  exact (marked_description_never_rewritten (WeatherResp.body none) 0
    ⟨7, "n", "d", none, "hello 🌡️ 20°C"⟩ (by decide)).1 "WS"

/-- C3: whenever `update_activity_description` actually writes, the new
description starts with the old description byte-for-byte as a prefix and
ends with the weather block as a suffix; nothing of the old text is removed
or reordered. -/
theorem updated_description_preserves_old (ws desc nd : String)
    (h : update_activity_description ws desc = UpdateAction.wrote nd) :
    desc.data <+: nd.data ∧ ws.data <:+ nd.data :=
  update_wrote_shape h

/-- Witness for C3 at a concrete non-empty description. -/
theorem updated_description_preserves_old_witness :
    update_activity_description "WS" "morning run" =
      UpdateAction.wrote "morning run\n\nWS" ∧
    ("morning run".data <+: "morning run\n\nWS".data ∧
      "WS".data <:+ "morning run\n\nWS".data) :=
  ⟨by decide, updated_description_preserves_old "WS" "morning run"
    "morning run\n\nWS" (by decide)⟩

/-- C9: when the existing description is empty (or absent — both falsy in
the source), an update writes exactly the weather string with no leading
separator; the two-newline separator appears only when the existing
description is non-empty. -/
theorem empty_description_gets_weather_alone (ws desc : String) :
    update_activity_description ws "" = UpdateAction.wrote ws ∧
    (desc ≠ "" → containsSub desc marker = false →
      update_activity_description ws desc =
        UpdateAction.wrote (desc ++ "\n\n" ++ ws)) := by
  constructor
  · unfold update_activity_description
    simp
  · intro hne hnm
    unfold update_activity_description
    rw [if_neg (by rintro ⟨-, hc⟩; rw [hnm] at hc; cases hc), if_pos hne]

/-- Witness for C9 at concrete descriptions. -/
theorem empty_description_gets_weather_alone_witness :
    update_activity_description "WS" "" = UpdateAction.wrote "WS" ∧
    ("run" ≠ "" ∧ containsSub "run" marker = false ∧
      update_activity_description "WS" "run" = UpdateAction.wrote "run\n\nWS") := by
  refine ⟨(empty_description_gets_weather_alone "WS" "run").1,
    by decide, by decide, ?_⟩
  exact (empty_description_gets_weather_alone "WS" "run").2 (by decide) (by decide)

/-! ## Second-run idempotence (C2) -/

/-- A concrete activity with GPS data and an empty description. -/
def cexActivity : ActivityDetails :=
  ⟨7, "Morning Run", "2024-06-08T07:30:00Z", some [45, 9], ""⟩

/-- A concrete weather response whose hourly object has humidity, wind and
weather code but no `temperature_2m` key (per the source this key then
defaults to `[None] * 24`, so the extracted temperature is `None`). -/
def cexResp : WeatherResp :=
  WeatherResp.body (some
    ⟨none,
     some (List.replicate 24 (some 50)),
     some (List.replicate 24 (some 120)),
     some (List.replicate 24 (some 0))⟩)

/-- The weather string the first run appends for `cexResp`: it contains no
`"🌡️"` because the temperature field is `None`. -/
def cexWs : String := "🌤️ Clear sky | 💧 50% | 💨 12.0 km/h"

/-- C2 counterexample: with a weather response lacking the temperature key,
the first run updates the activity, but the appended weather string contains
no `"🌡️"`, so the second run does not skip — it appends the block again and
the final description differs from the description after the first run. -/
theorem second_run_reappends_without_temperature :
    (processActivity cexResp 7 cexActivity).2
      = Except.ok (StepOutcome.updated cexWs) ∧
    runDescription cexResp 7 (setDescription cexActivity cexWs)
      = cexWs ++ "\n\n" ++ cexWs ∧
    runDescription cexResp 7 (setDescription cexActivity cexWs) ≠ cexWs := by
  refine ⟨rfl, rfl, ?_⟩
  decide

/-- C2 (amended): running the pipeline a second time is a no-op for every
activity updated by the first run whose fetched weather observation carries
a temperature value — the appended weather string then contains `"🌡️"`, so
the second run's marker check detects it, skips the activity, and the final
description equals the description after the first run. (Without a
temperature value the appended block carries no `"🌡️"` and the second run
appends again.) -/
theorem second_run_noop_with_temperature (resp : WeatherResp) (hour : Nat)
    (a : ActivityDetails) (wd : WeatherData) (t : Int) (nd : String)
    (hwd : get_weather_data resp hour = Except.ok (some wd))
    (ht : wd.temperature = some t)
    (h1 : (processActivity resp hour a).2 = Except.ok (StepOutcome.updated nd)) :
    (processActivity resp hour (setDescription a nd)).2
      = Except.ok StepOutcome.skippedAlreadyAnnotated ∧
    runDescription resp hour (setDescription a nd) = nd := by
  simp only [processActivity] at h1
  rcases hl : a.start_latlng with _ | l
  · simp only [hl] at h1
    simp at h1
  · simp only [hl] at h1
    by_cases h2 : l.length < 2
    · rw [if_pos h2] at h1
      simp at h1
    · by_cases h3 : l.length ≠ 2
      · rw [if_neg h2, if_pos h3] at h1
        simp at h1
      · rw [if_neg h2, if_neg h3] at h1
        simp only [hwd] at h1
        cases hf : format_weather_string (some wd) with
        | none =>
          simp only [hf] at h1
          simp at h1
        | some ws =>
          simp only [hf] at h1
          by_cases hws : ws = ""
          · rw [if_pos hws] at h1
            simp at h1
          · rw [if_neg hws] at h1
            cases hu : update_activity_description ws a.description with
            | skipped =>
              simp only [hu] at h1
              simp at h1
            | wrote nd2 =>
              simp only [hu] at h1
              simp at h1
              subst h1
              have hmk : containsSub ws marker = true :=
                marker_infix_of_temperature ht hf
              have hnd : containsSub nd2 marker = true := by
                rw [containsSub_iff]
                exact (containsSub_iff.mp hmk).trans
                  (update_wrote_shape hu).2.isInfix
              have hgoal1 : (processActivity resp hour
                  (setDescription a nd2)).2
                  = Except.ok StepOutcome.skippedAlreadyAnnotated := by
                simp only [processActivity, setDescription, hl]
                rw [if_neg h2, if_neg h3]
                simp only [hwd, hf]
                rw [if_neg hws]
                simp only [update_skipped_of_marker hnd]
              refine ⟨hgoal1, ?_⟩
              unfold runDescription
              rw [hgoal1]
              simp [setDescription]

/-- A concrete weather response whose hourly object has all four keys. -/
def cexRespT : WeatherResp :=
  WeatherResp.body (some
    ⟨some (List.replicate 24 (some 183)),
     some (List.replicate 24 (some 50)),
     some (List.replicate 24 (some 120)),
     some (List.replicate 24 (some 0))⟩)

/-- The observation extracted from `cexRespT` at hour 7. -/
def cexWdT : WeatherData := ⟨some 183, some 50, some 120, some 0⟩

/-- The weather string composed from `cexWdT`. -/
def cexWsT : String := "🌤️ Clear sky | 🌡️ 18.3°C | 💧 50% | 💨 12.0 km/h"

/-- Witness for the amended C2 at a concrete activity whose weather response
contains a temperature. -/
theorem second_run_noop_with_temperature_witness :
    get_weather_data cexRespT 7 = Except.ok (some cexWdT) ∧
    (processActivity cexRespT 7 cexActivity).2
      = Except.ok (StepOutcome.updated cexWsT) ∧
    (processActivity cexRespT 7 (setDescription cexActivity cexWsT)).2
      = Except.ok StepOutcome.skippedAlreadyAnnotated := by
  refine ⟨rfl, rfl, ?_⟩
  exact (second_run_noop_with_temperature cexRespT 7 cexActivity
    cexWdT 183 cexWsT rfl rfl rfl).1

/-! ## GPS filter (C4) -/

/-- C4: for every activity whose `start_latlng` is absent or has fewer than
two values, the loop iteration ends in the no-GPS skip: the only remote
call made is the detail GET — no weather fetch and no update PUT occur. -/
theorem no_gps_skips_without_fetch_or_put (resp : WeatherResp) (hour : Nat)
    (a : ActivityDetails)
    (h : a.start_latlng = none ∨ ∃ l, a.start_latlng = some l ∧ l.length < 2) :
    processActivity resp hour a
      = ([Effect.getDetails a.id], Except.ok StepOutcome.skippedNoGps) ∧
    (∀ i, Effect.fetchWeather i ∉ (processActivity resp hour a).1) ∧
    (∀ i d, Effect.putDescription i d ∉ (processActivity resp hour a).1) := by
  have he : processActivity resp hour a
      = ([Effect.getDetails a.id], Except.ok StepOutcome.skippedNoGps) := by
    unfold processActivity
    rcases h with h | ⟨l, hl, hlen⟩
    · simp only [h]
    · simp only [hl, if_pos hlen]
  refine ⟨he, fun i => ?_, fun i d => ?_⟩ <;> rw [he] <;> simp

/-- Witness for C4 at a concrete one-coordinate activity. -/
theorem no_gps_skips_without_fetch_or_put_witness :
    (some [45] = some [45] ∧ ([45] : List Int).length < 2) ∧
    processActivity (WeatherResp.body none) 0
        ⟨9, "Trainer", "2024-06-01T06:00:00Z", some [45], "x"⟩
      = ([Effect.getDetails 9], Except.ok StepOutcome.skippedNoGps) := by
  refine ⟨⟨rfl, by decide⟩, ?_⟩
  exact (no_gps_skips_without_fetch_or_put (WeatherResp.body none) 0
    ⟨9, "Trainer", "2024-06-01T06:00:00Z", some [45], "x"⟩
    (Or.inr ⟨[45], rfl, by decide⟩)).1

/-! ## Weather-fetch failure handling (C5) -/

/-- A second concrete activity, to observe whether the loop continues past a
failure on the first one. -/
def cexActivity2 : ActivityDetails :=
  ⟨8, "Evening Ride", "2024-06-09T18:00:00Z", some [46, 10], ""⟩

/-- C5 counterexample: an erroring HTTP call during the weather fetch is not
caught anywhere in `main` — the exception escapes the loop, the run aborts,
and the following activity is never processed (its detail GET never
happens). This contradicts the claim that every weather-fetch failure is
recovered locally and never fatal. -/
theorem weather_http_error_aborts_run :
    runLoop [(cexActivity, WeatherResp.raiseErr, 7), (cexActivity2, cexRespT, 18)]
      = ([Effect.getDetails 7, Effect.fetchWeather 7],
         Except.error (RunError.weatherError FetchErr.httpError)) ∧
    Effect.getDetails 8 ∉
      (runLoop [(cexActivity, WeatherResp.raiseErr, 7),
                (cexActivity2, cexRespT, 18)]).1 := by
  refine ⟨rfl, ?_⟩
  decide

/-- C5 (amended): only the falsy-weather-response case — a response whose
`"hourly"` member is absent or empty, so `get_weather_data` returns `None`
— is treated as skip-this-activity, after which the loop continues with the
remaining activities; an erroring HTTP call instead raises and aborts the
run. -/
theorem empty_weather_response_skips_and_continues (a : ActivityDetails)
    (l : List Int) (hour : Nat)
    (rest : List (ActivityDetails × WeatherResp × Nat))
    (hl : a.start_latlng = some l) (hlen : l.length = 2) :
    (runLoop ((a, WeatherResp.body none, hour) :: rest)).2
      = match (runLoop rest).2 with
        | Except.error e => Except.error e
        | Except.ok outs =>
          Except.ok ((a.id, StepOutcome.skippedNoWeather) :: outs) := by
  have hp : processActivity (WeatherResp.body none) hour a
      = ([Effect.getDetails a.id] ++ [Effect.fetchWeather a.id],
         Except.ok StepOutcome.skippedNoWeather) := by
    simp only [processActivity, hl]
    rw [if_neg (by omega), if_neg (by omega)]
    rfl
  simp only [runLoop, hp]
  rcases hr : runLoop rest with ⟨eff2, r2⟩
  cases r2 <;> simp

/-- Witness for the amended C5: a falsy weather response yields a skip and a
normally completed run. -/
theorem empty_weather_response_skips_and_continues_witness :
    cexActivity.start_latlng = some [45, 9] ∧ ([45, 9] : List Int).length = 2 ∧
    (runLoop [(cexActivity, WeatherResp.body none, 7)]).2
      = Except.ok [(7, StepOutcome.skippedNoWeather)] := by
  refine ⟨rfl, rfl, ?_⟩
  exact (empty_weather_response_skips_and_continues cexActivity [45, 9] 7 []
    rfl rfl).trans rfl

/-! ## Activity lister (C6, C7) -/

/-- Mocked remote for the spec's pagination scenario "pages of sizes
[50, 50, 0]": 100 activities total, served in pages of at most 50,
whatever the attempt number. -/
def pagedServer : Nat → Nat → PageResponse :=
  fun _ pp => ⟨200, (List.range 100).take (min pp 50)⟩

/-- C6 counterexample: with the [50, 50, 0] mock and a requested maximum of
75, `get_recent_activities` returns the 50 activities of the one and only
page it requests — not 75. The source has no pagination loop, accumulates
nothing, and never truncates. -/
theorem pagination_scenario_returns_50_not_75 :
    (get_recent_activities pagedServer 75).toOption.map List.length
      = some 50 ∧
    (get_recent_activities pagedServer 75).toOption.map List.length
      ≠ some 75 := by
  refine ⟨rfl, ?_⟩
  decide

/-- C6 (amended): `get_recent_activities` issues exactly one GET (attempt 0,
carrying only the `per_page` query parameter) and returns that single
response's body unchanged, in original order; there is no page loop, no
accumulation across pages, and no truncation to a maximum. -/
theorem lister_returns_single_page_body (server : Nat → Nat → PageResponse)
    (pp : Nat) (pageBody : List Nat)
    (h : server 0 pp = ⟨200, pageBody⟩) :
    get_recent_activities server pp = Except.ok pageBody := by
  unfold get_recent_activities raise_for_status
  rw [h]
  simp

/-- Witness for the amended C6 at the [50, 50, 0] mock. -/
theorem lister_returns_single_page_body_witness :
    pagedServer 0 75 = ⟨200, (List.range 100).take 50⟩ ∧
    get_recent_activities pagedServer 75
      = Except.ok ((List.range 100).take 50) := by
  refine ⟨rfl, ?_⟩
  exact lister_returns_single_page_body pagedServer 75
    ((List.range 100).take 50) rfl

/-- Mocked remote returning 503 on the first two attempts and 200 with data
on the third. -/
def retryServer : Nat → Nat → PageResponse :=
  fun attempt _ => if attempt < 2 then ⟨503, []⟩ else ⟨200, List.range 10⟩

/-- C7 counterexample: against the 503/503/200 mock the lister does not
succeed — the very first 503 raises (`raise_for_status`) and propagates;
there is no retry, no backoff, and no special-casing of 5xx. -/
theorem retry_scenario_fails_with_503 :
    get_recent_activities retryServer 10 = Except.error 503 := rfl

/-- C7 (amended): the lister performs zero retries for every error status:
whatever the single response's status `s`, if `400 ≤ s < 600` — server
errors (5xx) just like client errors (4xx) — the error propagates
immediately from the one and only attempt. -/
theorem any_error_status_propagates_immediately
    (server : Nat → Nat → PageResponse) (pp s : Nat) (b : List Nat)
    (h : server 0 pp = ⟨s, b⟩) (h4 : 400 ≤ s) (h6 : s < 600) :
    get_recent_activities server pp = Except.error s := by
  unfold get_recent_activities raise_for_status
  rw [h]
  simp [h4, h6]

/-- Mocked remote answering 404 to everything. -/
def notFoundServer : Nat → Nat → PageResponse := fun _ _ => ⟨404, []⟩

/-- Witness for the amended C7: a 404 (and, per
`retry_scenario_fails_with_503`, equally a 503) propagates from the first
attempt. -/
theorem any_error_status_propagates_immediately_witness :
    notFoundServer 0 10 = ⟨404, []⟩ ∧ 400 ≤ 404 ∧ 404 < 600 ∧
    get_recent_activities notFoundServer 10 = Except.error 404 := by
  refine ⟨rfl, by decide, by decide, ?_⟩
  exact any_error_status_propagates_immediately notFoundServer 10 404 []
    rfl (by decide) (by decide)

/-! ## Composition order (C8) -/

/-- The spec's composition scenario: temperature 18.3, no feels-like (the
source has no feels-like field at all), wind 12, condition "Clear" (WMO
code 0, rendered "Clear sky"), humidity absent. -/
def cexWd8 : WeatherData := ⟨some 183, none, some 120, some 0⟩

/-- C8 counterexample: the composed block for the scenario observation does
contain a temperature part, a wind part and a condition part (and no
feels-like parenthetical), but they are not in the claimed order
temperature–wind–condition: the condition part comes first. -/
theorem parts_order_counterexample :
    format_weather_string (some cexWd8)
      = some "🌤️ Clear sky | 🌡️ 18.3°C | 💨 12.0 km/h" ∧
    containsSub "🌤️ Clear sky | 🌡️ 18.3°C | 💨 12.0 km/h" "🌡️" = true ∧
    containsSub "🌤️ Clear sky | 🌡️ 18.3°C | 💨 12.0 km/h" "💨" = true ∧
    containsSub "🌤️ Clear sky | 🌡️ 18.3°C | 💨 12.0 km/h" "🌤️" = true ∧
    specPartsOrder "🌤️ Clear sky | 🌡️ 18.3°C | 💨 12.0 km/h" = false := by
  refine ⟨rfl, by decide, by decide, by decide, ?_⟩
  decide

/-- C8 (amended): for the scenario observation the composed block contains
the temperature part (with no feels-like parenthetical — no parenthesis
occurs at all), the wind part and the condition part, joined by `" | "`, in
the fixed order condition first, then temperature, then wind. -/
theorem composition_order_condition_temp_wind :
    format_weather_string (some cexWd8)
      = some "🌤️ Clear sky | 🌡️ 18.3°C | 💨 12.0 km/h" ∧
    containsSub "🌤️ Clear sky | 🌡️ 18.3°C | 💨 12.0 km/h" "(" = false ∧
    codePartsOrder "🌤️ Clear sky | 🌡️ 18.3°C | 💨 12.0 km/h" = true := by
  refine ⟨rfl, by decide, ?_⟩
  decide

/-! ## Hourly defaulting (C10) -/

theorem get?_replicate_of_lt {α : Type} (a : α) :
    ∀ n i, i < n → (List.replicate n a).get? i = some a
  | 0, i, h => absurd h (Nat.not_lt_zero i)
  | _ + 1, 0, _ => rfl
  | n + 1, i + 1, h => get?_replicate_of_lt a n i (Nat.lt_of_succ_lt_succ h)

theorem hourlyIndex_ok_of (field : Option (List (Option Int))) (hour : Nat)
    (hh : hour < 24)
    (h : field = none ∨ ∃ l, field = some l ∧ hour < l.length) :
    ∃ v, hourlyIndex field hour = Except.ok v ∧ (field = none → v = none) := by
  rcases h with h | ⟨l, hl, hlen⟩
  · refine ⟨none, ?_, fun _ => rfl⟩
    subst h
    unfold hourlyIndex
    simp only [Option.getD]
    rw [show noneList24 = List.replicate 24 (none : Option Int) from rfl,
      get?_replicate_of_lt _ _ _ hh]
  · subst hl
    rcases hg : l.get? hour with _ | v
    · exact absurd (List.get?_eq_none.mp hg) (Nat.not_le_of_lt hlen)
    · refine ⟨v, ?_, fun he => by cases he⟩
      unfold hourlyIndex
      simp only [Option.getD]
      rw [hg]

/-- C10: for every parsed start hour `h` in `0..23`, an hourly object that
is non-empty but lacks some of the four expected keys does not make
`get_weather_data` raise: each absent key defaults to a 24-element list of
`None`, so index `h` is always in range for defaulted keys; provided every
present key's list is long enough, the call succeeds and each absent key's
field in the result is `None`. -/
theorem absent_hourly_key_defaults_safely (hd : HourlyData) (hour : Nat)
    (hh : hour < 24)
    (h1 : hd.temperature_2m = none ∨
      ∃ l, hd.temperature_2m = some l ∧ hour < l.length)
    (h2 : hd.relative_humidity_2m = none ∨
      ∃ l, hd.relative_humidity_2m = some l ∧ hour < l.length)
    (h3 : hd.wind_speed_10m = none ∨
      ∃ l, hd.wind_speed_10m = some l ∧ hour < l.length)
    (h4 : hd.weather_code = none ∨
      ∃ l, hd.weather_code = some l ∧ hour < l.length) :
    ∃ wd, get_weather_data (WeatherResp.body (some hd)) hour
        = Except.ok (some wd) ∧
      (hd.temperature_2m = none → wd.temperature = none) ∧
      (hd.relative_humidity_2m = none → wd.humidity = none) ∧
      (hd.wind_speed_10m = none → wd.wind_speed = none) ∧
      (hd.weather_code = none → wd.weather_code = none) := by
  obtain ⟨v1, hv1, hn1⟩ := hourlyIndex_ok_of hd.temperature_2m hour hh h1
  obtain ⟨v2, hv2, hn2⟩ := hourlyIndex_ok_of hd.relative_humidity_2m hour hh h2
  obtain ⟨v3, hv3, hn3⟩ := hourlyIndex_ok_of hd.wind_speed_10m hour hh h3
  obtain ⟨v4, hv4, hn4⟩ := hourlyIndex_ok_of hd.weather_code hour hh h4
  refine ⟨⟨v1, v2, v3, v4⟩, ?_, fun he => by simp [hn1 he],
    fun he => by simp [hn2 he], fun he => by simp [hn3 he],
    fun he => by simp [hn4 he]⟩
  simp only [get_weather_data, hv1, hv2, hv3, hv4, Except.bind]
  rfl

/-- The hourly object of `cexResp` on its own: non-empty, lacking only the
temperature key. -/
def cexHourlyNoTemp : HourlyData :=
  ⟨none,
   some (List.replicate 24 (some 50)),
   some (List.replicate 24 (some 120)),
   some (List.replicate 24 (some 0))⟩

/-- Witness for C10 at hour 7 with the temperature key absent. -/
theorem absent_hourly_key_defaults_safely_witness :
    (7 : Nat) < 24 ∧
    ∃ wd, get_weather_data (WeatherResp.body (some cexHourlyNoTemp)) 7
        = Except.ok (some wd) ∧ wd.temperature = none := by
  obtain ⟨wd, hok, hn, -, -, -⟩ :=
    absent_hourly_key_defaults_safely cexHourlyNoTemp 7 (by decide)
      (Or.inl rfl)
      (Or.inr ⟨List.replicate 24 (some 50), rfl, by decide⟩)
      (Or.inr ⟨List.replicate 24 (some 120), rfl, by decide⟩)
      (Or.inr ⟨List.replicate 24 (some 0), rfl, by decide⟩)
  exact ⟨by decide, wd, hok, hn rfl⟩

end StravaWeather
